import Mathlib

/-!
Verification of the nats-operator controller against its specification.

The development shallowly embeds the Go sources:
  * `pkg/controller/controller.go` — watch-stream decoding (`pollEvent`),
    the monitor loop (`monitor`), the supervisor event switch inside
    `Controller.Run`, and `Config.validate` / `New`.
  * `pkg/util/k8sutil` — pod and service templating (`MakePodSpec`,
    `makeServiceSpec`, `makeMgmtServiceSpec`) and `CreateAndWaitPod`.

Go maps are embedded as association lists with an insert that overwrites
the existing binding; the Kubernetes API client is embedded as an explicit
environment of call outcomes, and the effects a function performs are
returned as an explicit operation list.
-/

/-! ## Association-list maps (embedding of Go maps) -/

/-- Lookup in an association list, the embedding of a Go map read. -/
def mapLookup {α : Type} (k : String) : List (String × α) → Option α
  | [] => none
  | (k', v) :: rest => if k' = k then some v else mapLookup k rest

/-- Insert that overwrites an existing binding, the embedding of `m[k] = v`. -/
def mapInsert {α : Type} (k : String) (v : α) : List (String × α) → List (String × α)
  | [] => [(k, v)]
  | (k', v') :: rest => if k' = k then (k, v) :: rest else (k', v') :: mapInsert k v rest

/-- Removal of a binding, the embedding of `delete(m, k)`. -/
def mapErase {α : Type} (k : String) : List (String × α) → List (String × α)
  | [] => []
  | (k', v') :: rest => if k' = k then rest else (k', v') :: mapErase k rest

/-- The keys of an association list. -/
def mapKeys {α : Type} (m : List (String × α)) : List String :=
  m.map Prod.fst

theorem mapLookup_insert_self {α : Type} (k : String) (v : α) (m : List (String × α)) :
    mapLookup k (mapInsert k v m) = some v := by
  induction m with
  | nil => simp [mapInsert, mapLookup]
  | cons hd tl ih =>
    obtain ⟨a, b⟩ := hd
    by_cases h : a = k
    · simp [mapInsert, mapLookup, h]
    · simp [mapInsert, mapLookup, h, ih]

theorem mapLookup_insert_ne {α : Type} (k k' : String) (v : α) (m : List (String × α))
    (h : k' ≠ k) : mapLookup k' (mapInsert k v m) = mapLookup k' m := by
  induction m with
  | nil => simp [mapInsert, mapLookup, Ne.symm h]
  | cons hd tl ih =>
    obtain ⟨a, b⟩ := hd
    by_cases hk : a = k
    · subst hk
      simp [mapInsert, mapLookup, Ne.symm h, ih]
    · simp [mapInsert, mapLookup, hk, ih]

theorem mem_keys_mapInsert {α : Type} (k x : String) (v : α) (m : List (String × α))
    (h : x ∈ mapKeys (mapInsert k v m)) : x = k ∨ x ∈ mapKeys m := by
  induction m with
  | nil =>
    simp [mapInsert, mapKeys] at h
    exact Or.inl h
  | cons hd tl ih =>
    obtain ⟨a, b⟩ := hd
    by_cases hk : a = k
    · subst hk
      simp only [mapKeys, List.map_cons, List.mem_cons]
      rcases (by simpa [mapInsert, mapKeys] using h : x = a ∨ x ∈ List.map Prod.fst tl) with h1 | h1
      · exact Or.inl h1
      · exact Or.inr (Or.inr h1)
    · simp only [mapInsert, if_neg hk, mapKeys, List.map_cons, List.mem_cons] at h
      simp only [mapKeys, List.map_cons, List.mem_cons]
      rcases h with h | h
      · exact Or.inr (Or.inl h)
      · rcases ih h with h1 | h1
        · exact Or.inl h1
        · exact Or.inr (Or.inr h1)

theorem mapKeys_insert_nodup {α : Type} (k : String) (v : α) (m : List (String × α))
    (h : (mapKeys m).Nodup) : (mapKeys (mapInsert k v m)).Nodup := by
  induction m with
  | nil => simp [mapInsert, mapKeys]
  | cons hd tl ih =>
    obtain ⟨a, b⟩ := hd
    simp only [mapKeys, List.map_cons, List.nodup_cons] at h
    by_cases hk : a = k
    · subst hk
      have : mapInsert a v ((a, b) :: tl) = (a, v) :: tl := by simp [mapInsert]
      rw [this]
      simp only [mapKeys, List.map_cons, List.nodup_cons]
      exact ⟨h.1, h.2⟩
    · simp only [mapInsert, if_neg hk, mapKeys, List.map_cons, List.nodup_cons]
      refine ⟨fun hmem => ?_, ih h.2⟩
      rcases mem_keys_mapInsert k a v tl hmem with h1 | h1
      · exact hk h1
      · exact h.1 h1

theorem mapKeys_erase_sublist {α : Type} (k : String) (m : List (String × α)) :
    (mapKeys (mapErase k m)).Sublist (mapKeys m) := by
  induction m with
  | nil => simp [mapErase, mapKeys]
  | cons hd tl ih =>
    by_cases hk : hd.1 = k
    · simp only [mapErase, if_pos hk, mapKeys, List.map_cons]
      exact List.sublist_cons_self hd.1 (tl.map Prod.fst)
    · simp only [mapErase, if_neg hk, mapKeys, List.map_cons]
      exact List.Sublist.cons₂ hd.1 ih

/-! ## Data model (`pkg/spec`, `pkg/api/unversioned`)

`ClusterSpec` and the custom-resource object mirror the declarative input
of §3 of the specification and the `spec.NatsCluster` type used by
`controller.go`. -/

/-- The declarative cluster specification (`spec.ClusterSpec`). -/
structure ClusterSpec where
  Size : Int
  Version : String
  Paused : Bool
  AntiAffinity : Bool
  NodeSelector : List (String × String)
deriving DecidableEq

/-- Object metadata carried by the custom resource (`api.ObjectMeta`):
only the fields the controller reads. -/
structure ClusterObjectMeta where
  Name : String
  ResourceVersion : String
deriving DecidableEq

/-- The observed custom resource (`spec.NatsCluster`). -/
structure NatsCluster where
  ObjectMeta : ClusterObjectMeta
  Spec : ClusterSpec
deriving DecidableEq

/-- An orchestrator status object (`unversioned.Status`): only the fields
the controller reads. -/
structure StatusObj where
  Code : Nat
  Message : String
deriving DecidableEq

/-- A typed watch event (`controller.Event`): `Type` in Go, written
`Type_` here because `Type` is reserved in Lean. -/
structure Event where
  Type_ : String
  Object : NatsCluster
deriving DecidableEq

/-! ## Watch stream frames (`controller.rawEvent` and its decoding)

A raw frame is one chunk of the watch response.  `json.Decoder.Decode`
into `rawEvent` either fails (a malformed chunk, embedded as
`RawFrame.malformed`) or produces a `Type` string and raw `Object` bytes.
The two possible further decodings of the `Object` bytes — as a status and
as a `NatsCluster` — are embedded as the two `Option` fields of `RawObj`;
`none` means that `json.Unmarshal` fails on those bytes. -/

/-- Raw `Object` bytes, represented by their two possible decodings. -/
structure RawObj where
  asStatus : Option StatusObj
  asCluster : Option NatsCluster
deriving DecidableEq

/-- One chunk of the chunked watch response. -/
inductive RawFrame where
  | malformed : RawFrame
  | frame : String → RawObj → RawFrame
deriving DecidableEq

/-- The outcome of `pollEvent` on one read: end of stream (`io.EOF`),
a decode failure (the wrapped non-EOF errors of `pollEvent`), a decoded
status frame, or a decoded data event. -/
inductive PollOutcome where
  | eof : PollOutcome
  | decodeError : String → PollOutcome
  | statusFrame : StatusObj → PollOutcome
  | eventFrame : Event → PollOutcome
deriving DecidableEq

/-- Decoding of a single raw frame, the body of `pollEvent`
(`controller.go` lines 281–309): a malformed chunk is a fatal decode
error; an `ERROR` frame decodes its object as a status (failure is
fatal); any other `Type` decodes its object as a `NatsCluster` (failure
is fatal) and yields a data event carrying that `Type` unchanged. -/
def pollFrame : RawFrame → PollOutcome
  | .malformed => .decodeError "Failed to decode raw event"
  | .frame t o =>
    if t = "ERROR" then
      match o.asStatus with
      | none => .decodeError "Failed to decode into unversioned.Status"
      | some st => .statusFrame st
    else
      match o.asCluster with
      | none => .decodeError "Failed to unmarshal NATSCluster object from data"
      | some c => .eventFrame { Type_ := t, Object := c }

/-- Embedding of `pollEvent(decoder)` over the embedded stream: reads one frame off the
front (an empty stream is `io.EOF`) and returns the outcome with the rest
of the stream. -/
def pollEvent : List RawFrame → PollOutcome × List RawFrame
  | [] => (.eof, [])
  | f :: rest => (pollFrame f, rest)

/-! ## The monitor loop (`Controller.monitor`, lines 221–279) -/

/-- How the inner decode loop of `monitor` ends: a clean end of stream
(`break` on `io.EOF`), a fatal decode error, a `410 Gone` status, or a
non-`Gone` status (which `logger.Fatalf` turns into a process abort). -/
inductive InnerOutcome where
  | eofBreak : InnerOutcome
  | fatal : String → InnerOutcome
  | gone : InnerOutcome
  | unexpectedAbort : String → InnerOutcome
deriving DecidableEq

/-- Result of running the inner decode loop over one response body:
the events sent on `eventCh` paired with the value of `watchVersion` at
the moment each was sent, the final `watchVersion`, and how the loop
ended. -/
structure InnerResult where
  delivered : List (String × Event)
  cursor : String
  outcome : InnerOutcome
deriving DecidableEq

/-- The inner decode loop of `monitor` (lines 246–272): repeatedly
`pollEvent`; on `io.EOF` break cleanly; on a decode error stop fatally;
on a status stop with `gone` when `Code = 410` and abort otherwise; on a
data event set `watchVersion` to the object's `ResourceVersion` and then
deliver the event. -/
def processFrames : String → List RawFrame → InnerResult
  | v, [] => { delivered := [], cursor := v, outcome := .eofBreak }
  | v, f :: rest =>
    match pollFrame f with
    | .eof => { delivered := [], cursor := v, outcome := .eofBreak }
    | .decodeError m => { delivered := [], cursor := v, outcome := .fatal m }
    | .statusFrame st =>
      if st.Code = 410 then
        { delivered := [], cursor := v, outcome := .gone }
      else
        { delivered := [], cursor := v, outcome := .unexpectedAbort st.Message }
    | .eventFrame ev =>
      let v' := ev.Object.ObjectMeta.ResourceVersion
      let r := processFrames v' rest
      { delivered := (v', ev) :: r.delivered, cursor := r.cursor, outcome := r.outcome }

/-- One call to `k8sutil.WatchClusters`: either the HTTP request fails, or
a response arrives with a status code and a body of frames. -/
inductive WatchConn where
  | failed : String → WatchConn
  | resp : Nat → List RawFrame → WatchConn
deriving DecidableEq

/-- How `monitor` ends.  `connectError`, `invalidStatusCode`,
`invalidEvent` and `versionOutdated` are the errors sent on `errCh`
(which `Run` returns); `unexpectedStatusAbort` is the `logger.Fatalf`
process abort; `streamExhausted` marks the boundary of the embedding:
the finite list of provisioned connections ran out while the Go loop
would open yet another watch. -/
inductive MonitorOutcome where
  | connectError : String → MonitorOutcome
  | invalidStatusCode : Nat → MonitorOutcome
  | invalidEvent : String → MonitorOutcome
  | versionOutdated : MonitorOutcome
  | unexpectedStatusAbort : String → MonitorOutcome
  | streamExhausted : String → MonitorOutcome
deriving DecidableEq

/-- The observable behaviour of `monitor`: the cursor passed to each
`WatchClusters` call, the events delivered on `eventCh` (each paired with
the cursor value at delivery), and how the goroutine ended. -/
structure MonitorTrace where
  opens : List String
  delivered : List (String × Event)
  outcome : MonitorOutcome
deriving DecidableEq

/-- The monitor goroutine (lines 230–276): open a watch at the current
`watchVersion`; a transport error or a non-200 status is sent on `errCh`;
otherwise decode the body with the inner loop; a clean `io.EOF` closes
the body and re-opens the watch at the current cursor; a decode error is
sent on `errCh`; a `410 Gone` status sends `ErrVersionOutdated` on
`errCh`; any other status aborts the process. -/
def monitorRun : String → List WatchConn → MonitorTrace
  | v, [] => { opens := [], delivered := [], outcome := .streamExhausted v }
  | v, .failed m :: _ => { opens := [v], delivered := [], outcome := .connectError m }
  | v, .resp code frames :: rest =>
    if code = 200 then
      match (processFrames v frames).outcome with
      | .eofBreak =>
        let t := monitorRun (processFrames v frames).cursor rest
        { opens := v :: t.opens
          delivered := (processFrames v frames).delivered ++ t.delivered
          outcome := t.outcome }
      | .fatal m =>
        { opens := [v], delivered := (processFrames v frames).delivered
          outcome := .invalidEvent m }
      | .gone =>
        { opens := [v], delivered := (processFrames v frames).delivered
          outcome := .versionOutdated }
      | .unexpectedAbort m =>
        { opens := [v], delivered := (processFrames v frames).delivered
          outcome := .unexpectedStatusAbort m }
    else
      { opens := [v], delivered := [], outcome := .invalidStatusCode code }

/-! ## The supervisor (`Controller.Run`, lines 101–156)

The per-cluster runtime is a `cluster.Cluster` from `pkg/cluster`, whose
source is not among the files; it is modelled from the specification.
Stop channels are embedded as identifiers drawn from a counter, so that a
freshly allocated channel is distinguishable from an existing one. -/

/-- Modelled from the spec: the per-cluster reconciler runtime
(`cluster.Cluster`, package `pkg/cluster`, not among the sources).  Per
§3 and §4.E it holds the current `ClusterSpec` and the cancellation
signal it was constructed with; the `updates` field records the specs
forwarded to it through `Update`, newest last. -/
structure ClusterRuntime where
  spec : ClusterSpec
  stopCh : Nat
  updates : List ClusterSpec
deriving DecidableEq

/-- Modelled from the spec: `cluster.New(kubeCli, name, ns, spec, stopC,
wg)` constructs a fresh runtime around the given spec and stop signal
(§4.E: "the reconciler is given (name, namespace, initialSpec,
stopSignal, completionLatch)"). -/
def ClusterRuntime.new (s : ClusterSpec) (stopC : Nat) : ClusterRuntime :=
  { spec := s, stopCh := stopC, updates := [] }

/-- Modelled from the spec: `Cluster.Update(spec)` replaces the runtime's
current spec atomically (§4.E step 3); the runtime itself — in particular
its stop signal — is unchanged. -/
def ClusterRuntime.update (rt : ClusterRuntime) (s : ClusterSpec) : ClusterRuntime :=
  { rt with spec := s, updates := rt.updates ++ [s] }

/-- The supervisor's in-memory state: the `clusters` and `stopChMap`
fields of `Controller`, plus the source of fresh stop-channel
identifiers. -/
structure SupervisorState where
  clusters : List (String × ClusterRuntime)
  stopChMap : List (String × Nat)
  nextStopCh : Nat
deriving DecidableEq

/-- The supervisor state of a freshly constructed controller (`New`):
both maps empty. -/
def initialSupervisorState : SupervisorState :=
  { clusters := [], stopChMap := [], nextStopCh := 0 }

/-- The event switch of the goroutine inside `Controller.Run`
(lines 127–154), embedded faithfully: `"ADDED"` unconditionally
allocates a fresh stop channel, constructs a new runtime via
`cluster.New`, and stores both under the cluster name (there is no check
whether a runtime already exists); `"MODIFIED"` forwards the new spec to
an existing runtime and drops the event otherwise; `"DELETED"` removes
an existing runtime from the clusters map and drops the event otherwise;
any other type string matches no case and leaves the state unchanged. -/
def handleClusterEvent (s : SupervisorState) (ev : Event) : SupervisorState :=
  let clusterName := ev.Object.ObjectMeta.Name
  if ev.Type_ = "ADDED" then
    let stopC := s.nextStopCh
    { clusters := mapInsert clusterName (ClusterRuntime.new ev.Object.Spec stopC) s.clusters
      stopChMap := mapInsert clusterName stopC s.stopChMap
      nextStopCh := s.nextStopCh + 1 }
  else if ev.Type_ = "MODIFIED" then
    match mapLookup clusterName s.clusters with
    | none => s
    | some rt =>
      { s with clusters := mapInsert clusterName (rt.update ev.Object.Spec) s.clusters }
  else if ev.Type_ = "DELETED" then
    match mapLookup clusterName s.clusters with
    | none => s
    | some _ => { s with clusters := mapErase clusterName s.clusters }
  else
    s

/-- The observable behaviour of one `Controller.Run` call after
initialisation: the monitor trace together with the supervisor state
after the goroutine has consumed every delivered event.  `Run` itself
blocks on `<-errCh` and returns the monitor outcome as its error. -/
structure RunResult where
  trace : MonitorTrace
  state : SupervisorState
deriving DecidableEq

/-- Embedding of `Controller.Run` after `initResource` produced `watchVersion`
(lines 125–155): start `monitor`, consume `eventCh` in order through the
event switch, and return the first error from `errCh`. -/
def controllerRun (watchVersion : String) (conns : List WatchConn) : RunResult :=
  let t := monitorRun watchVersion conns
  { trace := t
    state := t.delivered.foldl (fun s p => handleClusterEvent s p.2) initialSupervisorState }

/-! ## Configuration validation (`Config.validate`, `New`, lines 41–99) -/

/-- The supported persistent-volume provisioners (lines 42–45). -/
def supportedPVProvisioners : List String :=
  ["kubernetes.io/gce-pd", "kubernetes.io/aws-ebs"]

/-- The controller configuration (`controller.Config`); the Kubernetes
client handle is external and carries no information the validated
claims depend on, so it is omitted. -/
structure Config where
  Namespace : String
  MasterHost : String
  PVProvisioner : String
deriving DecidableEq

/-- Embedding of `Config.validate` (lines 78–86): reject any provisioner outside the
supported set. -/
def Config.validate (c : Config) : Except String Unit :=
  if c.PVProvisioner ∈ supportedPVProvisioners then
    .ok ()
  else
    .error ("persistent volume provisioner " ++ c.PVProvisioner ++ " is not supported")

/-- A constructed controller (`controller.Controller`): its configuration
and empty cluster and stop-channel maps. -/
structure ControllerVal where
  config : Config
  state : SupervisorState
deriving DecidableEq

/-- Embedding of `controller.New` (lines 88–99): panic when validation fails —
embedded as `none` — otherwise a controller with empty maps. -/
def New (cfg : Config) : Option ControllerVal :=
  match cfg.validate with
  | .error _ => none
  | .ok _ => some { config := cfg, state := initialSupervisorState }

/-! ## Ports (`pkg/constants`)

The `constants` package is not among the sources; the three ports are
modelled from the specification (§4.A, §6) with the standard NATS
values.  The claims refer to them only symbolically. -/

namespace constants

/-- Modelled from the spec: the NATS client port (`constants.ClientPort`,
package `pkg/constants`, not among the sources). -/
def ClientPort : Nat := 4222

/-- Modelled from the spec: the inter-peer cluster port
(`constants.ClusterPort`, not among the sources). -/
def ClusterPort : Nat := 6222

/-- Modelled from the spec: the monitoring HTTP port
(`constants.MonitoringPort`, not among the sources). -/
def MonitoringPort : Nat := 8222

end constants

/-! ## Pod and service declarations (`pkg/util/k8sutil`) -/

/-- Pod object metadata (`api.ObjectMeta`): the fields `MakePodSpec`
writes, plus the server-assigned `Name` read back by `CreateAndWaitPod`. -/
structure PodObjectMeta where
  Name : String
  GenerateName : String
  Labels : List (String × String)
  Annotations : List (String × String)
deriving DecidableEq

/-- A container declaration (`api.Container`): the fields the templating
writes. -/
structure Container where
  ContainerName : String
  Image : String
  Args : List String
deriving DecidableEq

/-- A pod specification (`api.PodSpec`): the fields the templating
writes.  `PlacementRules` carries the anti-affinity placement emitted by
`podWithAntiAffinity` (see there). -/
structure PodSpecDecl where
  Containers : List Container
  RestartPolicy : String
  NodeSelector : List (String × String)
  PlacementRules : Option String
deriving DecidableEq

/-- A pod declaration (`api.Pod`). -/
structure Pod where
  ObjectMeta : PodObjectMeta
  Spec : PodSpecDecl
deriving DecidableEq

/-- The annotation key `nats.version` (`versionAnnotationKey`). -/
def versionAnnotationKey : String := "nats.version"

/-- Embedding of `GetNATSVersion` (k8sutil): read the `nats.version` annotation; a Go
map read of a missing key yields the zero value `""`. -/
def GetNATSVersion (pod : Pod) : String :=
  (mapLookup versionAnnotationKey pod.ObjectMeta.Annotations).getD ""

/-- Embedding of `SetNATSVersion` (k8sutil): write the `nats.version` annotation. -/
def SetNATSVersion (pod : Pod) (version : String) : Pod :=
  let meta := pod.ObjectMeta
  { pod with ObjectMeta :=
      { meta with Annotations := mapInsert versionAnnotationKey version meta.Annotations } }

/-- Embedding of `MakeNATSImage` (k8sutil): the image reference `nats:<version>`. -/
def MakeNATSImage (version : String) : String :=
  "nats:" ++ version

/-- Embedding of `PodWithNodeSelector` (k8sutil): set the pod's node selector. -/
def PodWithNodeSelector (p : Pod) (ns : List (String × String)) : Pod :=
  { p with Spec := { p.Spec with NodeSelector := ns } }

/-- Modelled from the spec: `natsPodContainer(args, version)` is called
by `MakePodSpec` but is not among the sources; per §6 each peer runs one
container `nats:<version>` with the given arguments. -/
def natsPodContainer (args : List String) (version : String) : Container :=
  { ContainerName := "nats", Image := MakeNATSImage version, Args := args }

/-- Modelled from the spec: `podWithAntiAffinity(pod, clusterName)` is
called by `MakePodSpec` but is not among the sources; per §4.E it "emits
placement rules requesting one peer per node" for the cluster, embedded
as the `PlacementRules` field of the pod spec.  It touches nothing
else. -/
def podWithAntiAffinity (p : Pod) (clusterName : String) : Pod :=
  { p with Spec := { p.Spec with PlacementRules := some ("one-peer-per-node " ++ clusterName) } }

/-- Embedding of `MakePodSpec(clusterName, cs)` (k8sutil lines 208–249): the peer pod
declaration — generate-name prefix `<clusterName>-`, labels
`app=nats, nats_cluster=<name>`, one `nats` container at the spec's
version with the three fixed arguments, restart policy `Never`; then the
`nats.version` annotation is set, anti-affinity placement is added when
requested, and the node selector is copied when nonempty. -/
def MakePodSpec (clusterName : String) (cs : ClusterSpec) : Pod :=
  let args : List String :=
    ["--cluster=nats://0.0.0.0:" ++ toString constants.ClusterPort,
     "--http_port=" ++ toString constants.MonitoringPort,
     "--routes=nats://" ++ (clusterName ++ "-mgmt") ++ ":" ++ toString constants.ClusterPort]
  let pod : Pod :=
    { ObjectMeta :=
        { Name := ""
          GenerateName := clusterName ++ "-"
          Labels := [("app", "nats"), ("nats_cluster", clusterName)]
          Annotations := [] }
      Spec :=
        { Containers := [natsPodContainer args cs.Version]
          RestartPolicy := "Never"
          NodeSelector := []
          PlacementRules := none } }
  let pod := SetNATSVersion pod cs.Version
  let pod := if cs.AntiAffinity then podWithAntiAffinity pod clusterName else pod
  let pod := if cs.NodeSelector.length ≠ 0 then PodWithNodeSelector pod cs.NodeSelector else pod
  pod

/-- A service port declaration (`api.ServicePort`). -/
structure ServicePort where
  PortName : String
  Port : Nat
  TargetPort : Nat
  Protocol : String
deriving DecidableEq

/-- A service specification (`api.ServiceSpec`): the fields the
templating writes.  `api.ClusterIPNone` is the string `"None"`. -/
structure ServiceSpecDecl where
  ClusterIP : String
  Ports : List ServicePort
  Selector : List (String × String)
deriving DecidableEq

/-- A service declaration (`api.Service`). -/
structure ServiceDecl where
  Name : String
  Labels : List (String × String)
  Spec : ServiceSpecDecl
deriving DecidableEq

/-- Embedding of `makeServiceSpec(clusterName)` (k8sutil lines 98–122): the headless
client service named `<clusterName>` with one TCP port (the client port)
and selector `app=nats, nats_cluster=<name>`. -/
def makeServiceSpec (clusterName : String) : ServiceDecl :=
  let labels : List (String × String) := [("app", "nats"), ("nats_cluster", clusterName)]
  { Name := clusterName
    Labels := labels
    Spec :=
      { ClusterIP := "None"
        Ports :=
          [{ PortName := "client"
             Port := constants.ClientPort
             TargetPort := constants.ClientPort
             Protocol := "TCP" }]
        Selector := labels } }

/-- Embedding of `makeMgmtServiceSpec(clusterName)` (k8sutil lines 124–154): the
headless management service named `<clusterName>-mgmt` with two TCP
ports (cluster and monitoring) and selector
`app=nats-mgmt, nats_cluster=<name>`. -/
def makeMgmtServiceSpec (clusterName : String) : ServiceDecl :=
  let labels : List (String × String) := [("app", "nats-mgmt"), ("nats_cluster", clusterName)]
  { Name := clusterName ++ "-mgmt"
    Labels := labels
    Spec :=
      { ClusterIP := "None"
        Ports :=
          [{ PortName := "cluster"
             Port := constants.ClusterPort
             TargetPort := constants.ClusterPort
             Protocol := "TCP" },
           { PortName := "monitoring"
             Port := constants.MonitoringPort
             TargetPort := constants.MonitoringPort
             Protocol := "TCP" }]
        Selector := labels } }

/-! ## `CreateAndWaitPod` (k8sutil lines 156–177)

The Kubernetes pod API is external; each call's outcome is supplied by an
explicit environment, and the calls the function performs are returned as
an operation list, in order. -/

/-- Errors surfaced by the pod API; `timeout` is the error
`watch.Until` returns when the deadline fires before the pod is
`Running`. -/
inductive ApiError where
  | alreadyExists : ApiError
  | notFound : ApiError
  | timeout : ApiError
  | other : String → ApiError
deriving DecidableEq

/-- The pod API calls `CreateAndWaitPod` can perform. -/
inductive PodOp where
  | create : Pod → PodOp
  | watchPod : String → PodOp
  | untilRunning : PodOp
  | deletePod : String → PodOp
deriving DecidableEq

/-- Outcomes of the external pod API calls: the result of
`Pods(ns).Create` (on success, the stored pod with its server-assigned
name), of `Pods(ns).Watch`, and of `watch.Until(timeout, w,
unversioned.PodRunning)`. -/
structure PodApiEnv where
  createResult : Except ApiError Pod
  watchResult : Except ApiError Unit
  untilResult : Except ApiError Unit

/-- Embedding of `CreateAndWaitPod(kclient, ns, pod, timeout)` (lines 156–177): create
the pod; on success watch it and wait until `Running` or the deadline.
Every error — including the deadline — is returned as-is; the delete of
the dead pod is commented out in the source, so no path performs a
`deletePod`. -/
def CreateAndWaitPod (env : PodApiEnv) (pod : Pod) : List PodOp × Option ApiError :=
  match env.createResult with
  | .error e => ([.create pod], some e)
  | .ok createdPod =>
    match env.watchResult with
    | .error e => ([.create pod, .watchPod createdPod.ObjectMeta.Name], some e)
    | .ok _ =>
      match env.untilResult with
      | .error e =>
        ([.create pod, .watchPod createdPod.ObjectMeta.Name, .untilRunning], some e)
      | .ok _ =>
        ([.create pod, .watchPod createdPod.ObjectMeta.Name, .untilRunning], none)

/-! ## Sample values used by concrete witnesses and counterexamples -/

/-- A sample cluster specification (the 3-peer cluster of §8). -/
def sampleSpec : ClusterSpec :=
  { Size := 3, Version := "0.9.2", Paused := false, AntiAffinity := false, NodeSelector := [] }

/-- The sample specification rescaled to five peers. -/
def sampleSpec5 : ClusterSpec :=
  { sampleSpec with Size := 5 }

/-- A sample observed custom resource. -/
def sampleCluster (rv : String) (s : ClusterSpec) : NatsCluster :=
  { ObjectMeta := { Name := "test-nats-a", ResourceVersion := rv }, Spec := s }

/-! ## Theorems -/

/-- C9: Constructing a controller with `New(cfg)` succeeds exactly when
`cfg.PVProvisioner` is `kubernetes.io/gce-pd` or `kubernetes.io/aws-ebs`;
every other provisioner is rejected at startup (`New` panics, embedded as
`none`, instead of returning a controller). -/
theorem c9_new_validates_provisioner (cfg : Config) :
    (New cfg).isSome ↔
      (cfg.PVProvisioner = "kubernetes.io/gce-pd" ∨
       cfg.PVProvisioner = "kubernetes.io/aws-ebs") := by
  by_cases h : cfg.PVProvisioner ∈ supportedPVProvisioners
  · simp only [New, Config.validate, if_pos h, Option.isSome_some, true_iff]
    simpa [supportedPVProvisioners] using h
  · simp only [New, Config.validate, if_neg h, Option.isSome_none, false_iff]
    simpa [supportedPVProvisioners] using h

/-- Witness for C9: `New` accepts the GCE provisioner and rejects an
arbitrary other string. -/
theorem c9_new_witness :
    (New { Namespace := "default", MasterHost := "", PVProvisioner := "kubernetes.io/gce-pd" }).isSome
    ∧ ¬(New { Namespace := "default", MasterHost := "", PVProvisioner := "local" }).isSome :=
  ⟨(c9_new_validates_provisioner _).mpr (Or.inl rfl),
   fun h => by
     rcases (c9_new_validates_provisioner _).mp h with h1 | h1 <;> exact absurd h1 (by decide)⟩

/-- C8: The client service template is headless (`ClusterIP = None`),
named `<name>`, exposes exactly one TCP port — the client port — and
selects `app=nats, nats_cluster=<name>`; the management service template
is headless, named `<name>-mgmt`, exposes exactly the cluster port and the
monitoring port over TCP, and selects `app=nats-mgmt,
nats_cluster=<name>`. -/
theorem c8_service_templates (clusterName : String) :
    (makeServiceSpec clusterName).Name = clusterName ∧
    (makeServiceSpec clusterName).Spec.ClusterIP = "None" ∧
    (makeServiceSpec clusterName).Spec.Ports.map (fun p => (p.Port, p.Protocol))
      = [(constants.ClientPort, "TCP")] ∧
    (makeServiceSpec clusterName).Spec.Selector
      = [("app", "nats"), ("nats_cluster", clusterName)] ∧
    (makeMgmtServiceSpec clusterName).Name = clusterName ++ "-mgmt" ∧
    (makeMgmtServiceSpec clusterName).Spec.ClusterIP = "None" ∧
    (makeMgmtServiceSpec clusterName).Spec.Ports.map (fun p => (p.Port, p.Protocol))
      = [(constants.ClusterPort, "TCP"), (constants.MonitoringPort, "TCP")] ∧
    (makeMgmtServiceSpec clusterName).Spec.Selector
      = [("app", "nats-mgmt"), ("nats_cluster", clusterName)] :=
  ⟨rfl, rfl, rfl, rfl, rfl, rfl, rfl, rfl⟩

/-- C6: Reading the version annotation back from the pod produced by
the templating function yields the spec's version:
`GetNATSVersion (MakePodSpec name spec) = spec.Version` for every cluster
name and spec. -/
theorem c6_version_annotation_roundtrip (clusterName : String) (cs : ClusterSpec) :
    GetNATSVersion (MakePodSpec clusterName cs) = cs.Version := by
  unfold MakePodSpec
  split_ifs <;>
    simp [GetNATSVersion, SetNATSVersion, podWithAntiAffinity, PodWithNodeSelector,
      mapInsert, mapLookup, versionAnnotationKey]

/-- C7: the templating function `MakePodSpec` returns a pod declaration with generate-name
prefix `<clusterName>-`, labels `app=nats, nats_cluster=<name>`, exactly
one container whose image is `nats:<version>` with the three fixed
arguments in order, restart policy `Never`, and node selector copied from
the spec exactly when that mapping is nonempty. -/
theorem c7_make_pod_spec_shape (clusterName : String) (cs : ClusterSpec) :
    (MakePodSpec clusterName cs).ObjectMeta.GenerateName = clusterName ++ "-" ∧
    (MakePodSpec clusterName cs).ObjectMeta.Labels
      = [("app", "nats"), ("nats_cluster", clusterName)] ∧
    (MakePodSpec clusterName cs).Spec.RestartPolicy = "Never" ∧
    (MakePodSpec clusterName cs).Spec.Containers
      = [{ ContainerName := "nats"
           Image := "nats:" ++ cs.Version
           Args := ["--cluster=nats://0.0.0.0:" ++ toString constants.ClusterPort,
                    "--http_port=" ++ toString constants.MonitoringPort,
                    "--routes=nats://" ++ (clusterName ++ "-mgmt") ++ ":"
                      ++ toString constants.ClusterPort] }] ∧
    (cs.NodeSelector = [] → (MakePodSpec clusterName cs).Spec.NodeSelector = []) ∧
    (cs.NodeSelector ≠ [] →
      (MakePodSpec clusterName cs).Spec.NodeSelector = cs.NodeSelector) := by
  unfold MakePodSpec
  split_ifs with h1 h2 h2 <;>
    refine ⟨rfl, rfl, rfl, rfl, fun hn => ?_, fun hn => ?_⟩ <;>
    simp_all [SetNATSVersion, podWithAntiAffinity, PodWithNodeSelector, natsPodContainer,
      MakeNATSImage]

/-- Witness for C7 at a concrete cluster with a nonempty node selector. -/
theorem c7_make_pod_spec_witness :
    ({ sampleSpec with NodeSelector := [("disk", "ssd")] } : ClusterSpec).NodeSelector ≠ [] ∧
    (MakePodSpec "test-nats-a" { sampleSpec with NodeSelector := [("disk", "ssd")] }).Spec.NodeSelector
      = [("disk", "ssd")] :=
  ⟨by decide,
   (c7_make_pod_spec_shape "test-nats-a" { sampleSpec with NodeSelector := [("disk", "ssd")] }).2.2.2.2.2
     (by decide)⟩

/-- C5: the operation `CreateAndWaitPod` first creates the pod and then waits for it
to reach `Running`; when the deadline fires or the watch fails, the error
is returned and no delete of the created pod is performed on any path —
the pod is left in place. -/
theorem c5_create_then_wait_no_delete (env : PodApiEnv) (pod createdPod : Pod)
    (e : ApiError)
    (hc : env.createResult = .ok createdPod)
    (hw : env.watchResult = .ok ())
    (hu : env.untilResult = .error e) :
    CreateAndWaitPod env pod
      = ([.create pod, .watchPod createdPod.ObjectMeta.Name, .untilRunning], some e) ∧
    (∀ (env2 : PodApiEnv) (pod2 created2 : Pod) (e2 : ApiError),
      env2.createResult = .ok created2 → env2.watchResult = .error e2 →
      CreateAndWaitPod env2 pod2
        = ([.create pod2, .watchPod created2.ObjectMeta.Name], some e2)) ∧
    (∀ (env3 : PodApiEnv) (pod3 : Pod) (n : String),
      PodOp.deletePod n ∉ (CreateAndWaitPod env3 pod3).1) := by
  refine ⟨by simp [CreateAndWaitPod, hc, hw, hu], ?_, ?_⟩
  · intro env2 pod2 created2 e2 h2c h2w
    simp [CreateAndWaitPod, h2c, h2w]
  · intro env3 pod3 n
    unfold CreateAndWaitPod
    rcases env3.createResult with e3 | p3
    · simp
    · rcases env3.watchResult with e3 | u3
      · simp
      · rcases env3.untilResult with e3 | u3 <;> simp

/-- Witness for C5: a concrete environment whose pod never reaches
`Running` before the deadline. -/
theorem c5_create_and_wait_witness :
    ({ createResult := .ok (MakePodSpec "test-nats-a" sampleSpec)
       watchResult := .ok ()
       untilResult := .error .timeout } : PodApiEnv).untilResult = .error .timeout ∧
    CreateAndWaitPod
        { createResult := .ok (MakePodSpec "test-nats-a" sampleSpec)
          watchResult := .ok ()
          untilResult := .error .timeout }
        (MakePodSpec "test-nats-a" sampleSpec)
      = ([.create (MakePodSpec "test-nats-a" sampleSpec),
          .watchPod (MakePodSpec "test-nats-a" sampleSpec).ObjectMeta.Name,
          .untilRunning], some .timeout) :=
  ⟨rfl,
   (c5_create_then_wait_no_delete
      { createResult := .ok (MakePodSpec "test-nats-a" sampleSpec)
        watchResult := .ok ()
        untilResult := .error .timeout }
      (MakePodSpec "test-nats-a" sampleSpec)
      (MakePodSpec "test-nats-a" sampleSpec) .timeout rfl rfl rfl).1⟩

/-! ## Helper lemmas about the monitor loop -/

/-- Every event delivered by the inner decode loop is paired with a cursor
equal to its object's `ResourceVersion`: the cursor is advanced to exactly
that value before the send on `eventCh`. -/
theorem processFrames_delivered_cursor (fs : List RawFrame) :
    ∀ (v : String), ∀ p ∈ (processFrames v fs).delivered,
      p.1 = p.2.Object.ObjectMeta.ResourceVersion := by
  induction fs with
  | nil => intro v p hp; simp [processFrames] at hp
  | cons f rest ih =>
    intro v p hp
    cases hf : pollFrame f with
    | eof => simp [processFrames, hf] at hp
    | decodeError m => simp [processFrames, hf] at hp
    | statusFrame st =>
      by_cases h410 : st.Code = 410 <;> simp [processFrames, hf, h410] at hp
    | eventFrame ev =>
      simp only [processFrames, hf] at hp
      rcases List.mem_cons.1 hp with h | h
      · subst h; rfl
      · exact ih _ p h

/-- The final cursor of the inner decode loop is the `ResourceVersion`
cursor of the last delivered event, or the initial cursor when nothing was
delivered. -/
theorem processFrames_final_cursor (fs : List RawFrame) :
    ∀ (v : String),
      (processFrames v fs).cursor
        = (((processFrames v fs).delivered.getLast?).map Prod.fst).getD v := by
  induction fs with
  | nil => intro v; simp [processFrames]
  | cons f rest ih =>
    intro v
    cases hf : pollFrame f with
    | eof => simp [processFrames, hf]
    | decodeError m => simp [processFrames, hf]
    | statusFrame st =>
      by_cases h410 : st.Code = 410 <;> simp [processFrames, hf, h410]
    | eventFrame ev =>
      simp only [processFrames, hf]
      cases hd : (processFrames ev.Object.ObjectMeta.ResourceVersion rest).delivered with
      | nil =>
        have := ih ev.Object.ObjectMeta.ResourceVersion
        rw [hd] at this
        simpa [hd] using this
      | cons q qs =>
        have := ih ev.Object.ObjectMeta.ResourceVersion
        rw [hd] at this
        simpa [hd, List.getLast?_cons_cons] using this

/-- After a clean end of stream the monitor closes the body and re-opens
the watch at the current cursor, carrying delivered events across the
reopening. -/
theorem monitorRun_reopen_after_eof (v : String) (fs : List RawFrame)
    (conns : List WatchConn) (h : (processFrames v fs).outcome = .eofBreak) :
    monitorRun v (.resp 200 fs :: conns)
      = { opens := v :: (monitorRun (processFrames v fs).cursor conns).opens
          delivered :=
            (processFrames v fs).delivered
              ++ (monitorRun (processFrames v fs).cursor conns).delivered
          outcome := (monitorRun (processFrames v fs).cursor conns).outcome } := by
  simp [monitorRun, h]

/-- Whenever at least one connection is provisioned, the first watch is
opened at the cursor the monitor was started with. -/
theorem monitorRun_first_open (v : String) (conns : List WatchConn) (h : conns ≠ []) :
    (monitorRun v conns).opens.head? = some v := by
  cases conns with
  | nil => exact absurd rfl h
  | cons c rest =>
    rcases c with m | ⟨code, frames⟩
    · simp [monitorRun]
    · by_cases hc : code = 200
      · subst hc
        cases ho : (processFrames v frames).outcome <;> simp [monitorRun, ho]
      · simp [monitorRun, hc]

/-- A sample `ADDED` frame carrying the sample cluster at resource
version 7. -/
def frameA : RawFrame :=
  .frame "ADDED" { asStatus := none, asCluster := some (sampleCluster "7" sampleSpec) }

/-- C3: For every data event delivered by the monitor loop, the
resume cursor is advanced to the event object's `ResourceVersion` before
delivery; the cursor after a body equals the last delivered event's
`ResourceVersion` (or the initial cursor when nothing was delivered); and
after a clean end of stream the watch is reopened keyed by the current
cursor, which is the cursor the next `WatchClusters` call is opened
with. -/
theorem c3_cursor_tracks_delivery :
    (∀ (v : String) (fs : List RawFrame), ∀ p ∈ (processFrames v fs).delivered,
        p.1 = p.2.Object.ObjectMeta.ResourceVersion) ∧
    (∀ (v : String) (fs : List RawFrame),
        (processFrames v fs).cursor
          = (((processFrames v fs).delivered.getLast?).map Prod.fst).getD v) ∧
    (∀ (v : String) (fs : List RawFrame) (conns : List WatchConn),
        (processFrames v fs).outcome = .eofBreak →
        monitorRun v (.resp 200 fs :: conns)
          = { opens := v :: (monitorRun (processFrames v fs).cursor conns).opens
              delivered :=
                (processFrames v fs).delivered
                  ++ (monitorRun (processFrames v fs).cursor conns).delivered
              outcome := (monitorRun (processFrames v fs).cursor conns).outcome }) ∧
    (∀ (v : String) (conns : List WatchConn), conns ≠ [] →
        (monitorRun v conns).opens.head? = some v) :=
  ⟨fun v fs => processFrames_delivered_cursor fs v,
   fun v fs => processFrames_final_cursor fs v,
   monitorRun_reopen_after_eof,
   monitorRun_first_open⟩

/-- Witness for C3: one `ADDED` frame at resource version 7, after which
the stream closes cleanly and the next watch opens at cursor 7. -/
theorem c3_cursor_witness :
    (("7", { Type_ := "ADDED", Object := sampleCluster "7" sampleSpec })
        ∈ (processFrames "1" [frameA]).delivered) ∧
    ("7", ({ Type_ := "ADDED", Object := sampleCluster "7" sampleSpec } : Event)).1
      = ({ Type_ := "ADDED", Object := sampleCluster "7" sampleSpec } : Event).Object.ObjectMeta.ResourceVersion ∧
    (processFrames "1" [frameA]).outcome = .eofBreak ∧
    monitorRun "1" (.resp 200 [frameA] :: [.resp 200 []])
      = { opens := "1" :: (monitorRun (processFrames "1" [frameA]).cursor [.resp 200 []]).opens
          delivered :=
            (processFrames "1" [frameA]).delivered
              ++ (monitorRun (processFrames "1" [frameA]).cursor [.resp 200 []]).delivered
          outcome := (monitorRun (processFrames "1" [frameA]).cursor [.resp 200 []]).outcome } ∧
    (monitorRun "1" (.resp 200 [frameA] :: [.resp 200 []])).opens.head? = some "1" :=
  ⟨by decide,
   c3_cursor_tracks_delivery.1 "1" [frameA] _ (by decide),
   by decide,
   c3_cursor_tracks_delivery.2.2.1 "1" [frameA] [.resp 200 []] (by decide),
   c3_cursor_tracks_delivery.2.2.2 "1" (.resp 200 [frameA] :: [.resp 200 []]) (by decide)⟩

/-- Processing a prefix of well-decoding data frames only prepends their
events: the loop's outcome is that of the remaining frames (from some
advanced cursor), and exactly one event is delivered per prefix frame. -/
theorem processFrames_events_prefix (pre : List RawFrame) :
    ∀ (v : String) (tail : List RawFrame),
      (∀ g ∈ pre, ∃ ev, pollFrame g = .eventFrame ev) →
      ∃ v', (processFrames v (pre ++ tail)).outcome = (processFrames v' tail).outcome ∧
        (processFrames v (pre ++ tail)).delivered.length
          = pre.length + (processFrames v' tail).delivered.length := by
  induction pre with
  | nil => intro v tail _; exact ⟨v, rfl, by simp⟩
  | cons g pre ih =>
    intro v tail hall
    obtain ⟨ev, hev⟩ := hall g (List.mem_cons_self g pre)
    obtain ⟨v', h1, h2⟩ :=
      ih ev.Object.ObjectMeta.ResourceVersion tail
        (fun g' hg' => hall g' (List.mem_cons_of_mem g hg'))
    refine ⟨v', ?_, ?_⟩
    · simpa [processFrames, hev] using h1
    · simp only [List.cons_append, processFrames, hev, List.length_cons]
      have h2' : (processFrames ev.Object.ObjectMeta.ResourceVersion (pre.append tail)).delivered.length
          = pre.length + (processFrames v' tail).delivered.length := h2
      omega

/-- C4: A watch-stream frame that fails to decode — a malformed
chunk, an `ERROR` frame whose object is not a status, or a data frame
whose object is not a cluster — makes `pollEvent` return a non-EOF
error; the monitor loop forwards that error after delivering only the
events of the preceding well-formed frames, and `Run` exits returning
it: the malformed frame is never delivered as an event. -/
theorem c4_malformed_frame_fatal (pre : List RawFrame) (f : RawFrame)
    (rest : List RawFrame) (v : String)
    (hpre : ∀ g ∈ pre, ∃ ev, pollFrame g = .eventFrame ev)
    (hbad : ∃ m, pollFrame f = .decodeError m) :
    ∃ m, pollFrame f = .decodeError m ∧
      (pollEvent (f :: rest)).1 = .decodeError m ∧
      (processFrames v (pre ++ f :: rest)).outcome = .fatal m ∧
      (processFrames v (pre ++ f :: rest)).delivered.length = pre.length ∧
      (monitorRun v [.resp 200 (pre ++ f :: rest)]).outcome = .invalidEvent m ∧
      (controllerRun v [.resp 200 (pre ++ f :: rest)]).trace.outcome = .invalidEvent m := by
  obtain ⟨m, hm⟩ := hbad
  obtain ⟨v', ho, hl⟩ := processFrames_events_prefix pre v (f :: rest) hpre
  have hof : (processFrames v' (f :: rest)).outcome = .fatal m := by
    simp [processFrames, hm]
  have hdf : (processFrames v' (f :: rest)).delivered.length = 0 := by
    simp [processFrames, hm]
  have houter : (processFrames v (pre ++ f :: rest)).outcome = .fatal m := ho.trans hof
  refine ⟨m, hm, by simp [pollEvent, hm], houter, ?_, ?_, ?_⟩
  · omega
  · simp [monitorRun, houter]
  · simp [controllerRun, monitorRun, houter]

/-- Witness for C4: one well-formed `ADDED` frame followed by a
malformed chunk. -/
theorem c4_malformed_witness :
    (∀ g ∈ [frameA], ∃ ev, pollFrame g = .eventFrame ev) ∧
    (∃ m, pollFrame .malformed = .decodeError m) ∧
    (∃ m, pollFrame .malformed = .decodeError m ∧
      (pollEvent ([.malformed] : List RawFrame)).1 = .decodeError m ∧
      (processFrames "1" ([frameA] ++ [.malformed])).outcome = .fatal m ∧
      (processFrames "1" ([frameA] ++ [.malformed])).delivered.length = [frameA].length ∧
      (monitorRun "1" [.resp 200 ([frameA] ++ [.malformed])]).outcome = .invalidEvent m ∧
      (controllerRun "1" [.resp 200 ([frameA] ++ [.malformed])]).trace.outcome
        = .invalidEvent m) :=
  ⟨fun g hg => by
     have hg1 : g = frameA := by simpa using hg
     exact hg1 ▸ ⟨{ Type_ := "ADDED", Object := sampleCluster "7" sampleSpec }, rfl⟩,
   ⟨"Failed to decode raw event", rfl⟩,
   c4_malformed_frame_fatal [frameA] .malformed [] "1"
     (fun g hg => by
       have hg1 : g = frameA := by simpa using hg
       exact hg1 ▸ ⟨{ Type_ := "ADDED", Object := sampleCluster "7" sampleSpec }, rfl⟩)
     ⟨"Failed to decode raw event", rfl⟩⟩

/-- C10: A decoded frame of any type string other than `ERROR` —
including types outside ADDED/MODIFIED/DELETED — is yielded by
`pollEvent` as a data event; the monitor loop advances the cursor to its
`ResourceVersion` and delivers it; and the supervisor's event switch
matches no case for it and leaves the state unchanged. -/
theorem c10_unknown_event_type (t : String) (o : RawObj) (c : NatsCluster)
    (rest : List RawFrame) (v : String) (s : SupervisorState)
    (hErr : t ≠ "ERROR") (hc : o.asCluster = some c)
    (hA : t ≠ "ADDED") (hM : t ≠ "MODIFIED") (hD : t ≠ "DELETED") :
    pollFrame (.frame t o) = .eventFrame { Type_ := t, Object := c } ∧
    (processFrames v (.frame t o :: rest)).delivered
      = (c.ObjectMeta.ResourceVersion, { Type_ := t, Object := c })
          :: (processFrames c.ObjectMeta.ResourceVersion rest).delivered ∧
    (processFrames v (.frame t o :: rest)).cursor
      = (processFrames c.ObjectMeta.ResourceVersion rest).cursor ∧
    handleClusterEvent s { Type_ := t, Object := c } = s := by
  have hp : pollFrame (.frame t o) = .eventFrame { Type_ := t, Object := c } := by
    simp [pollFrame, hErr, hc]
  refine ⟨hp, ?_, ?_, ?_⟩
  · simp [processFrames, hp]
  · simp [processFrames, hp]
  · simp [handleClusterEvent, hA, hM, hD]

/-- Witness for C10: a `BOOKMARK` frame moves the cursor to its resource
version but does not change the supervisor state. -/
theorem c10_unknown_witness :
    ("BOOKMARK" : String) ≠ "ERROR" ∧
    ({ asStatus := none, asCluster := some (sampleCluster "9" sampleSpec) } : RawObj).asCluster
      = some (sampleCluster "9" sampleSpec) ∧
    (processFrames "1"
        [.frame "BOOKMARK" { asStatus := none, asCluster := some (sampleCluster "9" sampleSpec) }]).delivered
      = (("9" : String), ({ Type_ := "BOOKMARK", Object := sampleCluster "9" sampleSpec } : Event))
          :: (processFrames "9" ([] : List RawFrame)).delivered ∧
    handleClusterEvent initialSupervisorState
        { Type_ := "BOOKMARK", Object := sampleCluster "9" sampleSpec }
      = initialSupervisorState :=
  ⟨by decide, rfl,
   (c10_unknown_event_type "BOOKMARK"
      { asStatus := none, asCluster := some (sampleCluster "9" sampleSpec) }
      (sampleCluster "9" sampleSpec) [] "1" initialSupervisorState
      (by decide) rfl (by decide) (by decide) (by decide)).2.1,
   (c10_unknown_event_type "BOOKMARK"
      { asStatus := none, asCluster := some (sampleCluster "9" sampleSpec) }
      (sampleCluster "9" sampleSpec) [] "1" initialSupervisorState
      (by decide) rfl (by decide) (by decide) (by decide)).2.2.2⟩

/-- An `ERROR` frame whose object decodes to a `410 Gone` status. -/
def goneFrame : RawFrame :=
  .frame "ERROR"
    { asStatus := some { Code := 410, Message := "too old resource version" }
      asCluster := none }

/-- C1 counterexample to the claim as stated: with a `410 Gone`
`ERROR` frame on the stream and a further watch connection available,
`Run` does NOT recover: the monitor never opens a second watch (`opens`
stays at the single initial open), no event — synthetic or otherwise —
is delivered, and `Run` terminates returning `ErrVersionOutdated`. -/
theorem c1_no_relist_counterexample :
    (controllerRun "5" [.resp 200 [goneFrame], .resp 200 []]).trace.outcome
      = .versionOutdated ∧
    (controllerRun "5" [.resp 200 [goneFrame], .resp 200 []]).trace.opens = ["5"] ∧
    (controllerRun "5" [.resp 200 [goneFrame], .resp 200 []]).trace.delivered = [] ∧
    ¬ 2 ≤ (controllerRun "5" [.resp 200 [goneFrame], .resp 200 []]).trace.opens.length := by
  decide

/-- C1 amended: When the watch stream yields an `ERROR` frame
whose object decodes to a status with code `410 Gone`, the monitor
abandons the watch, delivers no event, opens no further watch, and
surfaces `ErrVersionOutdated` on the error channel; `Run` returns that
error and terminates, its in-memory state unchanged — no relist,
synthetic-event reconciliation or watch resumption happens inside
`Run`. -/
theorem c1_gone_terminates_run (v : String) (o : RawObj) (st : StatusObj)
    (rest : List RawFrame) (conns : List WatchConn)
    (ho : o.asStatus = some st) (h410 : st.Code = 410) :
    monitorRun v (.resp 200 (.frame "ERROR" o :: rest) :: conns)
      = { opens := [v], delivered := [], outcome := .versionOutdated } ∧
    (controllerRun v (.resp 200 (.frame "ERROR" o :: rest) :: conns)).trace.outcome
      = .versionOutdated ∧
    (controllerRun v (.resp 200 (.frame "ERROR" o :: rest) :: conns)).state
      = initialSupervisorState := by
  have hp : pollFrame (.frame "ERROR" o) = .statusFrame st := by
    simp [pollFrame, ho]
  have hin : processFrames v (.frame "ERROR" o :: rest)
      = { delivered := [], cursor := v, outcome := .gone } := by
    simp [processFrames, hp, h410]
  have hm : monitorRun v (.resp 200 (.frame "ERROR" o :: rest) :: conns)
      = { opens := [v], delivered := [], outcome := .versionOutdated } := by
    simp [monitorRun, hin]
  exact ⟨hm, by simp [controllerRun, hm], by simp [controllerRun, hm]⟩

/-- Witness for the amended C1 at the concrete `410 Gone` frame. -/
theorem c1_gone_witness :
    ({ asStatus := some { Code := 410, Message := "too old resource version" }
       asCluster := none } : RawObj).asStatus
      = some { Code := 410, Message := "too old resource version" } ∧
    ({ Code := 410, Message := "too old resource version" } : StatusObj).Code = 410 ∧
    monitorRun "5"
        (.resp 200
            (.frame "ERROR"
              { asStatus := some { Code := 410, Message := "too old resource version" }
                asCluster := none } :: []) :: [])
      = { opens := ["5"], delivered := [], outcome := .versionOutdated } :=
  ⟨rfl, rfl,
   (c1_gone_terminates_run "5"
      { asStatus := some { Code := 410, Message := "too old resource version" }
        asCluster := none }
      { Code := 410, Message := "too old resource version" } [] [] rfl rfl).1⟩

/-- The sample cluster as first observed (`ADDED`, resource version 1). -/
def clA1 : NatsCluster := sampleCluster "1" sampleSpec

/-- The sample cluster re-observed at resource version 2 with size 5. -/
def clA2 : NatsCluster := sampleCluster "2" sampleSpec5

/-- The supervisor state after the first `ADDED` for the sample
cluster. -/
def stateAfterFirstAdded : SupervisorState :=
  handleClusterEvent initialSupervisorState { Type_ := "ADDED", Object := clA1 }

/-- C2 counterexample to the claim as stated: a second `ADDED`
for an existing cluster name is NOT treated as `Modified`: the event
switch has no existence check, so the existing runtime (stop channel 0)
is replaced by a brand-new runtime with a fresh stop channel 1 and an
empty update log, which differs from the state the `MODIFIED` treatment
of the same event would produce (stop channel 0 kept, the new spec
forwarded through `Update`). -/
theorem c2_added_replaces_counterexample :
    mapLookup "test-nats-a" stateAfterFirstAdded.clusters
      = some { spec := sampleSpec, stopCh := 0, updates := [] } ∧
    mapLookup "test-nats-a"
        (handleClusterEvent stateAfterFirstAdded { Type_ := "ADDED", Object := clA2 }).clusters
      = some { spec := sampleSpec5, stopCh := 1, updates := [] } ∧
    handleClusterEvent stateAfterFirstAdded { Type_ := "ADDED", Object := clA2 }
      ≠ handleClusterEvent stateAfterFirstAdded { Type_ := "MODIFIED", Object := clA2 } ∧
    mapLookup "test-nats-a"
        (handleClusterEvent stateAfterFirstAdded { Type_ := "MODIFIED", Object := clA2 }).clusters
      = some { spec := sampleSpec5, stopCh := 0, updates := [sampleSpec5] } := by
  decide

/-- C2 amended: For every `ADDED` event the supervisor
unconditionally registers a fresh stop channel and a fresh reconciler
built from the event's spec under the event's cluster name, overwriting
any existing entries (an existing runtime is not forwarded the new spec);
bindings of other names are untouched, and the clusters map still holds
at most one runtime per cluster name. -/
theorem c2_added_registers_fresh_runtime (s : SupervisorState) (ev : Event)
    (h : ev.Type_ = "ADDED") :
    mapLookup ev.Object.ObjectMeta.Name (handleClusterEvent s ev).clusters
      = some { spec := ev.Object.Spec, stopCh := s.nextStopCh, updates := [] } ∧
    mapLookup ev.Object.ObjectMeta.Name (handleClusterEvent s ev).stopChMap
      = some s.nextStopCh ∧
    (handleClusterEvent s ev).nextStopCh = s.nextStopCh + 1 ∧
    (∀ m, m ≠ ev.Object.ObjectMeta.Name →
      mapLookup m (handleClusterEvent s ev).clusters = mapLookup m s.clusters) ∧
    ((mapKeys s.clusters).Nodup → (mapKeys (handleClusterEvent s ev).clusters).Nodup) := by
  simp only [handleClusterEvent, h, if_pos, ite_true, reduceIte]
  exact ⟨mapLookup_insert_self _ _ _,
    mapLookup_insert_self _ _ _,
    trivial,
    fun m hm => mapLookup_insert_ne _ _ _ _ hm,
    fun hn => mapKeys_insert_nodup _ _ _ hn⟩

/-- Witness for the amended C2: the first `ADDED` for the sample cluster
registers a runtime with stop channel 0 under its name. -/
theorem c2_added_witness :
    ({ Type_ := "ADDED", Object := clA1 } : Event).Type_ = "ADDED" ∧
    mapLookup "test-nats-a"
        (handleClusterEvent initialSupervisorState { Type_ := "ADDED", Object := clA1 }).clusters
      = some { spec := sampleSpec, stopCh := 0, updates := [] } :=
  ⟨rfl, by
    have h := c2_added_registers_fresh_runtime initialSupervisorState
      { Type_ := "ADDED", Object := clA1 } rfl
    simpa [clA1, sampleCluster, initialSupervisorState] using h.1⟩
